import Mathlib

/-!
Verification development for the traction repository's two source files:

* `plugins/traction_innkeeper/.../tenant_manager.py` — the `TenantManager`
  class: wallet/tenant provisioning, auth tokens, reservation password
  hashing and verification.
* `services/showcase/api/endpoints/routes/line_of_business.py` — the
  line-of-business routes; here the `request_degree` proof-request payload.

The Python code is shallowly embedded: bytes become `List Char` (UTF-8
encode/decode of ASCII data is the identity on the character sequence),
Python exceptions become an `Except PyErr` result, the database-backed
record stores become explicit state (`TMState`) threaded through each
operation, and the injected external multitenancy service becomes a record
of functions (`BaseMultitenantManager`).  Randomness (`uuid.uuid4()`,
`bcrypt.gensalt()`) and the clock (`datetime.utcnow()`) are passed in as
explicit parameters.  The external bcrypt library is modelled by an
idealized salted hash, see `hashpw` below.
-/

/-- Python byte strings, modelled as lists of characters. -/
abbrev Bytes := List Char

/-- Python exceptions that the embedded code can raise.  `storageNotFound`
and `storageDuplicate` model the agent framework's `StorageNotFoundError`
and `StorageDuplicateError` (both `StorageError`s), `baseModelError` models
`BaseModelError` (malformed persisted record), `baseError` models any other
`BaseError` raised by the external multitenancy service, and the remaining
constructors model the built-in Python exceptions of those names. -/
inductive PyErr where
  | storageNotFound
  | storageDuplicate
  | baseModelError
  | baseError
  | unboundLocalError
  | attributeError
  | valueError
deriving DecidableEq, Repr

/-- Model of Python `str.encode("utf-8")` on a `str` value. -/
def pyEncode (s : String) : Bytes := s.data

/-- Model of Python `bytes.decode("utf-8")`. -/
def pyDecode (b : Bytes) : String := String.mk b

/-- A Python value that is either a `str` or a `bytes` object; record
fields in the dynamically-typed source can hold either. -/
inductive PyStrBytes where
  | str (s : String)
  | bytes (b : Bytes)
deriving DecidableEq, Repr

/-- Model of attribute access `v.encode("utf-8")`: defined on `str`,
raises `AttributeError` on `bytes` (a Python `bytes` object has no
`encode` method). -/
def PyStrBytes.encode : PyStrBytes → Except PyErr Bytes
  | .str s => .ok (pyEncode s)
  | .bytes _ => .error .attributeError

/-- Length of every salt produced by `bcrypt.gensalt()` (the
`$2b$12$`-prefixed 29-byte salt string). -/
def BCRYPT_SALT_LEN : Nat := 29

/-- An ASCII digit character derived from a number. -/
def digitChar (n : Nat) : Char := Char.ofNat (48 + n % 10)

/-- Model of the external bcrypt library's `bcrypt.gensalt()`: a 29-byte
salt consisting of the `$2b$12$` prefix and 22 payload bytes.  The
randomness is passed in as the seed `r`. -/
def gensalt (r : Nat) : Bytes :=
  "$2b$12$".data ++ (List.range 22).map (fun i => digitChar (r / 10 ^ i))

/-- Well-formedness of a bcrypt salt in this model: the right length. -/
def is_valid_salt (s : Bytes) : Bool := s.length == BCRYPT_SALT_LEN

/-- Model of the external bcrypt library's `bcrypt.hashpw(password, salt)`.
Idealized salted hash: the output embeds its salt as a prefix (as real
bcrypt hashes do) and is injective in the pair (password, salt).  A
malformed salt raises `ValueError` ("Invalid salt"), as the library does. -/
def hashpw (password salt : Bytes) : Except PyErr Bytes :=
  if is_valid_salt salt then .ok (salt ++ password) else .error .valueError

/-- Model of the external bcrypt library's `bcrypt.checkpw(password, h)`:
re-hash `password` with the salt embedded in `h` and compare with `h`
(constant-time in the library; timing is not modelled).  A malformed `h`
raises `ValueError`, as the library does. -/
def checkpw (password h : Bytes) : Except PyErr Bool :=
  match hashpw password (h.take BCRYPT_SALT_LEN) with
  | .error e => .error e
  | .ok h2 => .ok (h2 == h)

/-- The `ReservationRecord` fields used by `check_reservation_password`:
the stored salt, the stored hash (each a `str` in normal operation, but
the dynamically-typed field can hold `bytes`), and the expiry timestamp
(seconds/minutes since an epoch; only its ordering matters). -/
structure ReservationRecord where
  reservation_token_salt : PyStrBytes
  reservation_token_hash : PyStrBytes
  expiry : Nat
deriving DecidableEq, Repr

/-- `TenantManager.generate_reservation_token_data` (tenant_manager.py
lines 165-179): produce a random password (`str(uuid.uuid4())`, passed in
here as `gen_pwd`), a salt (`bcrypt.gensalt()`, seeded by `salt_seed`), the
salted hash of the password, and an expiry timestamp `now + expiry_minutes`
(the configured `reservation.expiry_minutes`). -/
def generate_reservation_token_data (gen_pwd : String) (salt_seed : Nat)
    (now expiry_minutes : Nat) : Except PyErr (String × Bytes × Bytes × Nat) :=
  let _pwd := gen_pwd
  let _salt := gensalt salt_seed
  match hashpw (pyEncode _pwd) _salt with
  | .error e => .error e
  | .ok _hash => .ok (_pwd, _salt, _hash, now + expiry_minutes)

/-- `TenantManager.check_reservation_password` (tenant_manager.py lines
181-209): recompute the hash of the supplied plaintext with the record's
stored salt, check the plaintext against that recomputed hash, then against
the record's stored hash, and return the recomputed hash decoded to a
string if both checks pass, else `None` (modelled as `some`/`none`).  The
record's `expiry` field is never consulted. -/
def check_reservation_password (reservation_pwd : String)
    (reservation : ReservationRecord) : Except PyErr (Option String) :=
  match reservation.reservation_token_salt.encode with
  | .error e => .error e
  | .ok salt_b =>
    match hashpw (pyEncode reservation_pwd) salt_b with
    | .error e => .error e
    | .ok reservation_token =>
      match checkpw (pyEncode reservation_pwd) reservation_token with
      | .error e => .error e
      | .ok checkpw1 =>
        match reservation.reservation_token_hash.encode with
        | .error e => .error e
        | .ok hash_b =>
          match checkpw (pyEncode reservation_pwd) hash_b with
          | .error e => .error e
          | .ok checkpw2 =>
            if checkpw1 && checkpw2 then .ok (some (pyDecode reservation_token))
            else .ok none

/-- A variant of `check_reservation_password` written from the spec's words
for the refinement claim: it performs only the persisted-hash check
(comparison (b)), dropping the redundant self-check (comparison (a)). -/
def check_reservation_password_persisted_only (reservation_pwd : String)
    (reservation : ReservationRecord) : Except PyErr (Option String) :=
  match reservation.reservation_token_salt.encode with
  | .error e => .error e
  | .ok salt_b =>
    match hashpw (pyEncode reservation_pwd) salt_b with
    | .error e => .error e
    | .ok reservation_token =>
      match reservation.reservation_token_hash.encode with
      | .error e => .error e
      | .ok hash_b =>
        match checkpw (pyEncode reservation_pwd) hash_b with
        | .error e => .error e
        | .ok checkpw2 =>
          if checkpw2 then .ok (some (pyDecode reservation_token))
          else .ok none

/-- Python dictionaries with string keys, modelled as association lists
with unique keys (lookup returns the first match). -/
abbrev PyDict (α : Type) := List (String × α)

/-- Dictionary lookup, `d[k]` / `d.get(k)`. -/
def dictGet {α : Type} : PyDict α → String → Option α
  | [], _ => none
  | kv :: rest, k => if kv.1 == k then some kv.2 else dictGet rest k

/-- Dictionary assignment `d[k] = v`: replace the value at an existing
key in place, or append a new entry (Python dicts keep insertion order). -/
def dictSet {α : Type} : PyDict α → String → α → PyDict α
  | [], k, v => [(k, v)]
  | kv :: rest, k, v =>
    if kv.1 == k then (k, v) :: rest else kv :: dictSet rest k v

/-- Dictionary merge `d.update(e)`: assign every entry of `e` into `d`. -/
def dictUpdate {α : Type} (d e : PyDict α) : PyDict α :=
  e.foldl (fun acc kv => dictSet acc kv.1 kv.2) d

/-- The values occurring in wallet settings dictionaries. -/
inductive SettingVal where
  | str (s : String)
  | bool (b : Bool)
  | strList (l : List String)
deriving DecidableEq, Repr

/-- The `WalletRecord` of the agent runtime, as used by the tenant
manager: id, name, key and settings. -/
structure WalletRecord where
  wallet_id : String
  wallet_name : String
  wallet_key : String
  settings : PyDict SettingVal
deriving DecidableEq, Repr

/-- The plugin's `TenantRecord`: tenant id, tenant name (copied from the
wallet name) and the backing wallet's id. -/
structure TenantRecord where
  tenant_id : String
  tenant_name : String
  wallet_id : String
deriving DecidableEq, Repr

/-- The storage visible to the tenant manager: the persisted tenant
records and wallet records. -/
structure TMState where
  tenants : List TenantRecord
  wallets : List WalletRecord
deriving DecidableEq, Repr

/-- The injected external multitenancy service (`BaseMultitenantManager`):
`create_wallet(settings, key_management_mode)` and
`create_auth_token(wallet_record, wallet_key)`, each of which may raise. -/
structure BaseMultitenantManager where
  create_wallet : PyDict SettingVal → String → Except PyErr WalletRecord
  create_auth_token : WalletRecord → String → Except PyErr String

/-- `WalletRecord.MODE_MANAGED`, the key management mode used by
`create_wallet`. -/
def MODE_MANAGED : String := "managed"

/-- `WalletRecord.retrieve_by_id`: the unique stored wallet with this id,
`StorageNotFoundError` when absent, `StorageDuplicateError` when the id is
ambiguous. -/
def retrieve_wallet_by_id (st : TMState) (wallet_id : String) :
    Except PyErr WalletRecord :=
  match st.wallets.filter (fun w => w.wallet_id == wallet_id) with
  | [] => .error .storageNotFound
  | [w] => .ok w
  | _ => .error .storageDuplicate

/-- `TenantRecord.retrieve_by_id`, analogously. -/
def retrieve_tenant_by_id (st : TMState) (tenant_id : String) :
    Except PyErr TenantRecord :=
  match st.tenants.filter (fun t => t.tenant_id == tenant_id) with
  | [] => .error .storageNotFound
  | [t] => .ok t
  | _ => .error .storageDuplicate

/-- Persisting a new tenant record (`tenant.save`): storage refuses a
duplicate id, otherwise the record is appended. -/
def save_tenant (st : TMState) (t : TenantRecord) : Except PyErr TMState :=
  if st.tenants.any (fun x => x.tenant_id == t.tenant_id) then
    .error .storageDuplicate
  else
    .ok { st with tenants := st.tenants ++ [t] }

/-- Python truthiness defaulting `if not wallet_name: wallet_name =
str(uuid.uuid4())`: `None` and the empty string are replaced by the
generated value. -/
def defaultIf (v : Option String) (gen : String) : String :=
  match v with
  | none => gen
  | some s => if s = "" then gen else s

/-- The settings dictionary built by `TenantManager.create_wallet`
(tenant_manager.py lines 60-70): the five defaults, then
`settings.update(extra_settings)`, then `settings["default_label"] =
label` where the label is the wallet name. -/
def build_wallet_settings (profile_wallet_type : String)
    (wallet_name wallet_key : String) (extra_settings : PyDict SettingVal) :
    PyDict SettingVal :=
  let settings : PyDict SettingVal := [
    ("wallet.type", .str profile_wallet_type),
    ("wallet.name", .str wallet_name),
    ("wallet.key", .str wallet_key),
    ("wallet.webhook_urls", .strList []),
    ("wallet.dispatch_type", .str "base")]
  let settings := dictUpdate settings extra_settings
  dictSet settings "default_label" (.str wallet_name)

/-- `TenantManager.get_token` (tenant_manager.py lines 87-98): request an
auth token from the multitenancy service for the wallet, with the wallet's
own key; errors are logged and re-raised (so they propagate unchanged). -/
def get_token (mgr : BaseMultitenantManager) (w : WalletRecord) :
    Except PyErr String :=
  mgr.create_auth_token w w.wallet_key

/-- Whether an exception is caught by `except (StorageError,
BaseModelError)`. -/
def PyErr.is_storage_or_model_error : PyErr → Bool
  | .storageNotFound => true
  | .storageDuplicate => true
  | .baseModelError => true
  | _ => false

/-- `TenantManager.get_token_by_wallet_id` (tenant_manager.py lines
100-107): look up the wallet, then fetch a token.  A `StorageError` or
`BaseModelError` from the `try` block is caught and only logged; the
function then executes `return token` with the local `token` never
assigned, which raises `UnboundLocalError`.  Any other error propagates. -/
def get_token_by_wallet_id (mgr : BaseMultitenantManager) (st : TMState)
    (wallet_id : String) : Except PyErr String :=
  let body : Except PyErr String :=
    match retrieve_wallet_by_id st wallet_id with
    | .error e => .error e
    | .ok wallet_record => get_token mgr wallet_record
  match body with
  | .ok token => .ok token
  | .error e =>
    if e.is_storage_or_model_error then .error .unboundLocalError
    else .error e

/-- `TenantManager.create_tenant` (tenant_manager.py lines 109-125): load
the wallet by id, build a `TenantRecord` carrying the wallet's name and
id (with the given tenant id, or a generated one when absent), and save
it.  Failures are logged and re-raised, leaving the store unchanged. -/
def create_tenant (st : TMState) (wallet_id : String)
    (tenant_id : Option String) (gen_tenant_id : String) :
    Except PyErr TenantRecord × TMState :=
  match retrieve_wallet_by_id st wallet_id with
  | .error e => (.error e, st)
  | .ok wallet_record =>
    let tenant : TenantRecord :=
      { tenant_id := tenant_id.getD gen_tenant_id,
        tenant_name := wallet_record.wallet_name,
        wallet_id := wallet_record.wallet_id }
    match save_tenant st tenant with
    | .error e => (.error e, st)
    | .ok st2 => (.ok tenant, st2)

/-- `TenantManager.create_wallet` (tenant_manager.py lines 42-85):
default the name and key (to fresh uuids, passed in as `gen_name` /
`gen_key`), build the settings, ask the multitenancy service to create the
wallet (which persists it), fetch an auth token, and only then create the
tenant record.  An error from the service or the token call is logged and
re-raised, and no tenant record is created. -/
def create_wallet (mgr : BaseMultitenantManager) (st : TMState)
    (profile_wallet_type : String) (wallet_name wallet_key : Option String)
    (gen_name gen_key gen_tenant_id : String)
    (extra_settings : PyDict SettingVal) (tenant_id : Option String) :
    Except PyErr (TenantRecord × WalletRecord × String) × TMState :=
  let name := defaultIf wallet_name gen_name
  let key := defaultIf wallet_key gen_key
  let settings := build_wallet_settings profile_wallet_type name key
    extra_settings
  match mgr.create_wallet settings MODE_MANAGED with
  | .error e => (.error e, st)
  | .ok wallet_record =>
    let st1 : TMState := { st with wallets := st.wallets ++ [wallet_record] }
    match get_token mgr wallet_record with
    | .error e => (.error e, st1)
    | .ok token =>
      match create_tenant st1 wallet_record.wallet_id tenant_id
          gen_tenant_id with
      | (.error e, st2) => (.error e, st2)
      | (.ok tenant, st2) => (.ok (tenant, wallet_record, token), st2)

/-- The `innkeeper_wallet` section of the plugin configuration. -/
structure InnkeeperWalletConfig where
  tenant_id : String
  wallet_name : String
  wallet_key : String
  print_key : Bool
  print_token : Bool
deriving DecidableEq, Repr

/-- The existence check of `TenantManager.create_innkeeper`
(tenant_manager.py lines 133-144): retrieve the configured tenant record
and then its backing wallet record; any `StorageError` / `BaseModelError`
leaves at least one record variable unset (modelled as the error case). -/
def find_innkeeper (st : TMState) (tenant_id : String) :
    Except PyErr (TenantRecord × WalletRecord) :=
  match retrieve_tenant_by_id st tenant_id with
  | .error e => .error e
  | .ok tenant_record =>
    match retrieve_wallet_by_id st tenant_record.wallet_id with
    | .error e => .error e
    | .ok wallet_record => .ok (tenant_record, wallet_record)

/-- `TenantManager.create_innkeeper` (tenant_manager.py lines 127-163):
look for the configured innkeeper tenant and its backing wallet; if both
exist, only fetch a token, else create the wallet with the
`wallet.innkeeper` flag and the configured tenant id.  The resulting
tenant, wallet and token (which the source prints) are returned along
with the updated store. -/
def create_innkeeper (mgr : BaseMultitenantManager) (st : TMState)
    (profile_wallet_type : String) (cfg : InnkeeperWalletConfig)
    (gen_tenant_id : String) :
    Except PyErr (TenantRecord × WalletRecord × String) × TMState :=
  match find_innkeeper st cfg.tenant_id with
  | .ok (tenant_record, wallet_record) =>
    match get_token mgr wallet_record with
    | .error e => (.error e, st)
    | .ok token => (.ok (tenant_record, wallet_record, token), st)
  | .error _ =>
    create_wallet mgr st profile_wallet_type (some cfg.wallet_name)
      (some cfg.wallet_key) "" "" gen_tenant_id
      [("wallet.innkeeper", .bool true)] (some cfg.tenant_id)

/-- The proof request built by `request_degree`
(line_of_business.py lines 294-313), as typed records. -/
structure Restriction where
  cred_def_id : String
deriving DecidableEq, Repr

/-- A requested attribute of the proof request. -/
structure RequestedAttribute where
  name : String
  restrictions : List Restriction
deriving DecidableEq, Repr

/-- A requested predicate of the proof request. -/
structure RequestedPredicate where
  name : String
  p_type : String
  p_value : Int
  restrictions : List Restriction
deriving DecidableEq, Repr

/-- A proof request: requested attributes and requested predicates. -/
structure ProofRequest where
  requested_attributes : List RequestedAttribute
  requested_predicates : List RequestedPredicate
deriving DecidableEq, Repr

/-- The `proof_req` dictionary literal of `request_degree`
(line_of_business.py lines 294-313), parameterized by the Faber line of
business's `cred_def_id` (looked up by name "Faber" in the sandbox). -/
def request_degree_proof_req (faber_cred_def_id : String) : ProofRequest :=
  { requested_attributes := [
      { name := "degree",
        restrictions := [{ cred_def_id := faber_cred_def_id }] },
      { name := "date",
        restrictions := [{ cred_def_id := faber_cred_def_id }] }],
    requested_predicates := [
      { name := "age", p_type := ">", p_value := 18,
        restrictions := [{ cred_def_id := faber_cred_def_id }] }] }

/-- A multitenancy service stub whose wallet creation always fails with a
`BaseError` while token issuance succeeds. -/
def mgr_wallet_fails : BaseMultitenantManager :=
  { create_wallet := fun _ _ => .error .baseError,
    create_auth_token := fun _ _ => .ok "token" }

/-- A multitenancy service stub that always succeeds: the created wallet
echoes the requested settings, tokens are derived from the wallet id. -/
def mgr_all_ok : BaseMultitenantManager :=
  { create_wallet := fun settings _ =>
      .ok { wallet_id := "wid-1", wallet_name := "inn", wallet_key := "key-1",
            settings := settings },
    create_auth_token := fun w _ => .ok ("token-" ++ w.wallet_id) }

/-- Every generated salt has the bcrypt salt length. -/
theorem gensalt_length (r : Nat) : (gensalt r).length = BCRYPT_SALT_LEN := by
  simp [gensalt, BCRYPT_SALT_LEN]

/-- Every generated salt is well formed. -/
theorem gensalt_valid (r : Nat) : is_valid_salt (gensalt r) = true := by
  simp [is_valid_salt, gensalt_length]

/-- `hashpw` on a well-formed salt succeeds and embeds the salt. -/
theorem hashpw_valid (p s : Bytes) (hs : is_valid_salt s = true) :
    hashpw p s = .ok (s ++ p) := by
  simp [hashpw, hs]

/-- Checking password `q` against a hash produced from password `p` and a
well-formed salt `s` succeeds and reports whether `q` equals `p`. -/
theorem checkpw_append (q p s : Bytes) (hs : is_valid_salt s = true) :
    checkpw q (s ++ p) = .ok (q == p) := by
  have hlen : s.length = BCRYPT_SALT_LEN := by
    simpa [is_valid_salt] using hs
  have htake : (s ++ p).take BCRYPT_SALT_LEN = s := List.take_left' hlen
  simp only [checkpw, htake, hashpw_valid _ _ hs]
  simp [List.append_cancel_left_eq]

/-- The self-check of `check_reservation_password` is true by
construction: checking a password against the hash just computed from it
always succeeds. -/
theorem checkpw_self (p s : Bytes) (hs : is_valid_salt s = true) :
    checkpw p (s ++ p) = .ok true := by
  simp [checkpw_append p p s hs]

/-- `generate_reservation_token_data` always succeeds, with the salt,
the salted hash of the password, and expiry `now + expiry_minutes`. -/
theorem generate_reservation_token_data_eq (gen_pwd : String)
    (salt_seed now expiry_minutes : Nat) :
    generate_reservation_token_data gen_pwd salt_seed now expiry_minutes =
      .ok (gen_pwd, gensalt salt_seed,
           gensalt salt_seed ++ pyEncode gen_pwd, now + expiry_minutes) := by
  simp [generate_reservation_token_data,
        hashpw_valid _ _ (gensalt_valid salt_seed)]

/-- Encoding the decoding of a byte string is the identity. -/
theorem pyEncode_pyDecode (b : Bytes) : pyEncode (pyDecode b) = b := rfl

/-- C1: Round-trip: for any generated password, calling
`generate_reservation_token_data()` and storing its outputs (password,
salt, hash, expiry) as a `ReservationRecord`, then calling
`check_reservation_password` with that same password and that record,
succeeds: it returns the recomputed hash string, not the no-match
sentinel. -/
theorem reservation_roundtrip (gen_pwd : String) (salt_seed now em : Nat)
    (pwd : String) (salt hash : Bytes) (expiry : Nat)
    (hgen : generate_reservation_token_data gen_pwd salt_seed now em =
      .ok (pwd, salt, hash, expiry)) :
    check_reservation_password pwd
      { reservation_token_salt := .str (pyDecode salt),
        reservation_token_hash := .str (pyDecode hash),
        expiry := expiry } = .ok (some (pyDecode hash)) := by
  rw [generate_reservation_token_data_eq] at hgen
  obtain ⟨hpwd, hsalt, hhash, -⟩ :
      gen_pwd = pwd ∧ gensalt salt_seed = salt ∧
      gensalt salt_seed ++ pyEncode gen_pwd = hash ∧ now + em = expiry := by
    simpa using hgen
  subst hpwd hsalt hhash
  have hv := gensalt_valid salt_seed
  simp [check_reservation_password, PyStrBytes.encode, pyEncode_pyDecode,
        hashpw_valid _ _ hv, checkpw_self _ _ hv, checkpw_append _ _ _ hv]

/-- Closed instance of the round-trip theorem at a concrete password and
seed. -/
theorem reservation_roundtrip_witness :
    check_reservation_password "a"
      { reservation_token_salt := .str (pyDecode (gensalt 0)),
        reservation_token_hash := .str (pyDecode (gensalt 0 ++ pyEncode "a")),
        expiry := 7 } = .ok (some (pyDecode (gensalt 0 ++ pyEncode "a"))) :=
  reservation_roundtrip "a" 0 3 4 "a" (gensalt 0) (gensalt 0 ++ pyEncode "a") 7
    (generate_reservation_token_data_eq "a" 0 3 4)

/-- C2: for distinct passwords, checking the wrong password against a
record generated for the other one fails: `check_reservation_password`
returns the sentinel `None` (here `.ok none`), not a hash string. -/
theorem reservation_wrong_password_fails (gen_pwd Q : String)
    (salt_seed now em : Nat) (pwd : String) (salt hash : Bytes) (expiry : Nat)
    (hgen : generate_reservation_token_data gen_pwd salt_seed now em =
      .ok (pwd, salt, hash, expiry))
    (hne : Q ≠ pwd) :
    check_reservation_password Q
      { reservation_token_salt := .str (pyDecode salt),
        reservation_token_hash := .str (pyDecode hash),
        expiry := expiry } = .ok none := by
  rw [generate_reservation_token_data_eq] at hgen
  obtain ⟨hpwd, hsalt, hhash, -⟩ :
      gen_pwd = pwd ∧ gensalt salt_seed = salt ∧
      gensalt salt_seed ++ pyEncode gen_pwd = hash ∧ now + em = expiry := by
    simpa using hgen
  subst hpwd hsalt hhash
  have hv := gensalt_valid salt_seed
  have hne' : pyEncode Q ≠ pyEncode gen_pwd := by
    intro h
    exact hne (congrArg String.mk h)
  simp [check_reservation_password, PyStrBytes.encode, pyEncode_pyDecode,
        hashpw_valid _ _ hv, checkpw_self _ _ hv, checkpw_append _ _ _ hv, hne']

/-- Closed instance: password "b" fails against a record generated for
"a". -/
theorem reservation_wrong_password_fails_witness :
    check_reservation_password "b"
      { reservation_token_salt := .str (pyDecode (gensalt 0)),
        reservation_token_hash := .str (pyDecode (gensalt 0 ++ pyEncode "a")),
        expiry := 7 } = .ok none :=
  reservation_wrong_password_fails "a" "b" 0 3 4 "a" (gensalt 0)
    (gensalt 0 ++ pyEncode "a") 7
    (generate_reservation_token_data_eq "a" 0 3 4) (by decide)

/-- C3: `check_reservation_password` never consults the record's expiry
timestamp: its result is the same for any two expiry values.  In
particular, on a record whose expiry has passed it still returns the hash
string for the correct password instead of failing as the spec requires. -/
theorem check_reservation_password_ignores_expiry (pwd : String)
    (s h : PyStrBytes) (e e' : Nat) :
    check_reservation_password pwd
        { reservation_token_salt := s, reservation_token_hash := h,
          expiry := e } =
      check_reservation_password pwd
        { reservation_token_salt := s, reservation_token_hash := h,
          expiry := e' } := rfl

/-- C6: `check_reservation_password` is equivalent to the version that
performs only the persisted-hash check: the self-check (comparison (a)) is
always true once the recomputed hash exists, so the result is determined
solely by the comparison against the persisted hash field. -/
theorem check_reservation_password_refines_persisted_only (pwd : String)
    (r : ReservationRecord) :
    check_reservation_password pwd r =
      check_reservation_password_persisted_only pwd r := by
  unfold check_reservation_password check_reservation_password_persisted_only
  cases hsaltE : r.reservation_token_salt.encode with
  | error e => rfl
  | ok salt_b =>
    cases hvalid : is_valid_salt salt_b with
    | false => simp [hashpw, hvalid]
    | true =>
      simp only [hashpw_valid _ _ hvalid,
                 checkpw_self (pyEncode pwd) salt_b hvalid]
      cases r.reservation_token_hash.encode with
      | error e => rfl
      | ok hash_b =>
        cases checkpw (pyEncode pwd) hash_b with
        | error e => rfl
        | ok b => simp

/-- C10: `generate_reservation_token_data` returns the salt and hash as
bytes, while `check_reservation_password` calls `.encode("utf-8")` on the
record's fields; on a record populated directly with the byte values the
generator returned, `check_reservation_password` raises `AttributeError`
instead of returning either a hash string or the no-match sentinel. -/
theorem check_reservation_password_bytes_record_raises (gen_pwd : String)
    (salt_seed now em : Nat) (pwd : String) (salt hash : Bytes) (expiry : Nat)
    (_hgen : generate_reservation_token_data gen_pwd salt_seed now em =
      .ok (pwd, salt, hash, expiry)) (Q : String) :
    check_reservation_password Q
      { reservation_token_salt := .bytes salt,
        reservation_token_hash := .bytes hash,
        expiry := expiry } = .error .attributeError := rfl

/-- Closed instance of the bytes-record failure at concrete values. -/
theorem check_reservation_password_bytes_record_raises_witness :
    check_reservation_password "a"
      { reservation_token_salt := .bytes (gensalt 0),
        reservation_token_hash := .bytes (gensalt 0 ++ pyEncode "a"),
        expiry := 7 } = .error .attributeError :=
  check_reservation_password_bytes_record_raises "a" 0 3 4 "a" (gensalt 0)
    (gensalt 0 ++ pyEncode "a") 7
    (generate_reservation_token_data_eq "a" 0 3 4) "a"

/-- Looking up the key just assigned yields the assigned value. -/
theorem dictGet_dictSet_self {α : Type} (d : PyDict α) (k : String) (v : α) :
    dictGet (dictSet d k v) k = some v := by
  induction d with
  | nil => simp [dictSet, dictGet]
  | cons kv rest ih =>
    by_cases h : kv.1 = k
    · simp [dictSet, dictGet, h]
    · simp [dictSet, dictGet, h, ih]

/-- Assignment at one key leaves lookups of other keys unchanged. -/
theorem dictGet_dictSet_ne {α : Type} (d : PyDict α) (k k' : String) (v : α)
    (hne : k' ≠ k) : dictGet (dictSet d k v) k' = dictGet d k' := by
  have hne' : k ≠ k' := Ne.symm hne
  induction d with
  | nil => simp [dictSet, dictGet, hne']
  | cons kv rest ih =>
    by_cases h : kv.1 = k
    · simp [dictSet, dictGet, h, hne']
    · by_cases h' : kv.1 = k'
      · simp [dictSet, dictGet, h, h', hne]
      · simp [dictSet, dictGet, h, h', ih]

/-- Merging a dictionary none of whose keys is `k` leaves the lookup of
`k` unchanged. -/
theorem dictGet_dictUpdate_of_not_mem {α : Type} (e d : PyDict α)
    (k : String) (hk : ∀ kv ∈ e, kv.1 ≠ k) :
    dictGet (dictUpdate d e) k = dictGet d k := by
  induction e generalizing d with
  | nil => rfl
  | cons kv rest ih =>
    have hkv : kv.1 ≠ k := hk kv (List.mem_cons_self kv rest)
    have hrest : ∀ kv' ∈ rest, kv'.1 ≠ k :=
      fun kv' h => hk kv' (List.mem_cons_of_mem kv h)
    calc dictGet (dictUpdate (dictSet d kv.1 kv.2) rest) k
        = dictGet (dictSet d kv.1 kv.2) k := ih (dictSet d kv.1 kv.2) hrest
      _ = dictGet d k := dictGet_dictSet_ne d kv.1 k kv.2 (fun h => hkv h.symm)

/-- Merging a duplicate-free dictionary containing `k ↦ v` makes the
lookup of `k` yield `v`. -/
theorem dictGet_dictUpdate_of_mem {α : Type} (e d : PyDict α) (k : String)
    (v : α) (hnd : (e.map Prod.fst).Nodup) (hk : dictGet e k = some v) :
    dictGet (dictUpdate d e) k = some v := by
  induction e generalizing d with
  | nil => simp [dictGet] at hk
  | cons kv rest ih =>
    rw [List.map_cons, List.nodup_cons] at hnd
    by_cases h : kv.1 = k
    · have hv : kv.2 = v := by simpa [dictGet, h] using hk
      have hrest : ∀ kv' ∈ rest, kv'.1 ≠ k := by
        intro kv' hmem heq
        exact hnd.1 (h ▸ heq ▸ List.mem_map_of_mem Prod.fst hmem)
      show dictGet (dictUpdate (dictSet d kv.1 kv.2) rest) k = some v
      rw [dictGet_dictUpdate_of_not_mem rest _ k hrest, h,
          dictGet_dictSet_self, hv]
    · have hk' : dictGet rest k = some v := by simpa [dictGet, h] using hk
      exact ih (dictSet d kv.1 kv.2) hnd.2 hk'

/-- C8 counterexample: the caller-supplied `default_label` is clobbered.
`settings["default_label"] = label` runs after
`settings.update(extra_settings)`, so for the key `"default_label"` the
settings passed to the multitenancy service carry the wallet name, not the
caller-supplied value. -/
theorem build_wallet_settings_default_label_clobbered :
    dictGet [("default_label", SettingVal.str "X")] "default_label" =
        some (SettingVal.str "X") ∧
    dictGet (build_wallet_settings "askar" "w" "k"
        [("default_label", SettingVal.str "X")]) "default_label" =
      some (SettingVal.str "w") := ⟨rfl, rfl⟩

/-- C8 (amended): for every key present in `extra_settings` other than
`"default_label"`, the settings dictionary that `create_wallet` passes to
the multitenancy service maps that key to the caller-supplied value rather
than the default. -/
theorem build_wallet_settings_respects_extra (pwt name key : String)
    (extra : PyDict SettingVal) (k : String) (v : SettingVal)
    (hnd : (extra.map Prod.fst).Nodup)
    (hk : dictGet extra k = some v)
    (hlabel : k ≠ "default_label") :
    dictGet (build_wallet_settings pwt name key extra) k = some v := by
  unfold build_wallet_settings
  rw [dictGet_dictSet_ne _ _ _ _ hlabel]
  exact dictGet_dictUpdate_of_mem extra _ k v hnd hk

/-- Closed instance of the amended C8 theorem: the `wallet.innkeeper`
flag survives into the settings passed to the service. -/
theorem build_wallet_settings_respects_extra_witness :
    dictGet (build_wallet_settings "askar" "w" "k"
        [("wallet.innkeeper", SettingVal.bool true)]) "wallet.innkeeper" =
      some (SettingVal.bool true) :=
  build_wallet_settings_respects_extra "askar" "w" "k"
    [("wallet.innkeeper", SettingVal.bool true)] "wallet.innkeeper"
    (SettingVal.bool true) (by decide) rfl (by decide)

/-- C5 counterexample: when the wallet lookup fails, the function does not
return a value at all (its result is not a success), contrary to the claim
that it returns whatever the local `token` variable last held: executing
`return token` with the local never assigned raises `UnboundLocalError`. -/
theorem get_token_by_wallet_id_missing_raises :
    (get_token_by_wallet_id mgr_wallet_fails { tenants := [], wallets := [] }
        "w-1").isOk = false ∧
    get_token_by_wallet_id mgr_wallet_fails { tenants := [], wallets := [] }
        "w-1" = .error .unboundLocalError := ⟨rfl, rfl⟩

/-- C5 (amended): when the wallet lookup fails with a storage error, the
function logs it, and then `return token` raises `UnboundLocalError`
(the local `token` was never assigned), rather than raising a defined
not-found error or returning an explicit not-found result. -/
theorem get_token_by_wallet_id_lookup_failure (mgr : BaseMultitenantManager)
    (st : TMState) (wallet_id : String) (e : PyErr)
    (he : retrieve_wallet_by_id st wallet_id = .error e) :
    get_token_by_wallet_id mgr st wallet_id = .error .unboundLocalError := by
  have hsm : e.is_storage_or_model_error = true := by
    unfold retrieve_wallet_by_id at he
    split at he
    · injection he with h; cases h; rfl
    · exact Except.noConfusion he
    · injection he with h; cases h; rfl
  simp [get_token_by_wallet_id, he, hsm]

/-- Closed instance of the amended C5 theorem on an empty store. -/
theorem get_token_by_wallet_id_lookup_failure_witness :
    get_token_by_wallet_id mgr_all_ok { tenants := [], wallets := [] }
        "w-1" = .error .unboundLocalError :=
  get_token_by_wallet_id_lookup_failure mgr_all_ok
    { tenants := [], wallets := [] } "w-1" .storageNotFound rfl

/-- C9: the proof request built by `request_degree` has exactly the two
requested attributes `degree` and `date` and exactly one requested
predicate `age > 18`, and every attribute and the predicate is restricted
to the Faber issuer's `cred_def_id`. -/
theorem request_degree_proof_req_shape (cdid : String) :
    (request_degree_proof_req cdid).requested_attributes.length = 2 ∧
    (request_degree_proof_req cdid).requested_attributes.map
        (fun a => a.name) = ["degree", "date"] ∧
    (request_degree_proof_req cdid).requested_predicates.length = 1 ∧
    (request_degree_proof_req cdid).requested_predicates.map
        (fun p => (p.name, p.p_type, p.p_value)) = [("age", ">", 18)] ∧
    (request_degree_proof_req cdid).requested_attributes.map
        (fun a => a.restrictions) =
      [[{ cred_def_id := cdid }], [{ cred_def_id := cdid }]] ∧
    (request_degree_proof_req cdid).requested_predicates.map
        (fun p => p.restrictions) = [[{ cred_def_id := cdid }]] :=
  ⟨rfl, rfl, rfl, rfl, rfl, rfl⟩

/-- Inversion of a successful `create_tenant`: the wallet was found, the
tenant record carries the wallet's name and id, its id was not already
taken, and the store gained exactly that tenant record. -/
theorem create_tenant_ok_inv (st : TMState) (wid : String)
    (tid : Option String) (g : String) (t : TenantRecord) (st2 : TMState)
    (h : create_tenant st wid tid g = (.ok t, st2)) :
    ∃ wr, retrieve_wallet_by_id st wid = .ok wr ∧
      t = { tenant_id := tid.getD g, tenant_name := wr.wallet_name,
            wallet_id := wr.wallet_id } ∧
      st.tenants.any (fun x => x.tenant_id == t.tenant_id) = false ∧
      st2 = { st with tenants := st.tenants ++ [t] } := by
  unfold create_tenant at h
  split at h
  · simp at h
  · rename_i wr hwr
    unfold save_tenant at h
    dsimp only at h
    split at h
    · simp at h
    · rename_i st2' hif
      split at hif
      · exact Except.noConfusion hif
      · rename_i hany
        injection hif with hst2'
        simp only [Prod.mk.injEq, Except.ok.injEq] at h
        obtain ⟨ht, hst⟩ := h
        refine ⟨wr, hwr, ht.symm, ?_, ?_⟩
        · rw [← ht]
          simpa using hany
        · rw [← hst, ← hst2', ht]

/-- Inversion of a successful wallet retrieval: the filter of the stored
wallets by the id is exactly the returned record. -/
theorem retrieve_wallet_ok_inv (st : TMState) (wid : String)
    (w : WalletRecord) (h : retrieve_wallet_by_id st wid = .ok w) :
    st.wallets.filter (fun x => x.wallet_id == wid) = [w] := by
  unfold retrieve_wallet_by_id at h
  split at h
  · exact Except.noConfusion h
  · rename_i w' heq
    injection h with h'
    rw [← h']
    exact heq
  · exact Except.noConfusion h

/-- A list filter equal to a singleton after appending a matching element
forces the prefix to contain no match. -/
theorem filter_append_singleton {α : Type} (l : List α) (p : α → Bool)
    (x y : α) (hx : p x = true) (h : (l ++ [x]).filter p = [y]) :
    l.filter p = [] ∧ x = y := by
  rw [List.filter_append] at h
  simp only [List.filter_cons, hx, if_pos, List.filter_nil] at h
  cases hl : l.filter p with
  | nil =>
    rw [hl] at h
    simpa using h
  | cons a as =>
    rw [hl] at h
    simp at h

/-- Inversion of a successful `create_wallet`: the multitenancy call and
the token call succeeded with the returned wallet and token, the wallet id
was fresh, the tenant record carries the wallet's name and id, the tenant
id was fresh, and the final store is the input store extended by exactly
the new wallet and the new tenant record. -/
theorem create_wallet_ok_inv (mgr : BaseMultitenantManager) (st : TMState)
    (pwt : String) (wn wk : Option String) (gn gk gt : String)
    (extra : PyDict SettingVal) (tid : Option String) (t : TenantRecord)
    (w : WalletRecord) (tok : String) (st' : TMState)
    (h : create_wallet mgr st pwt wn wk gn gk gt extra tid =
      (.ok (t, w, tok), st')) :
    mgr.create_wallet
        (build_wallet_settings pwt (defaultIf wn gn) (defaultIf wk gk) extra)
        MODE_MANAGED = .ok w ∧
    get_token mgr w = .ok tok ∧
    st.wallets.filter (fun x => x.wallet_id == w.wallet_id) = [] ∧
    t = { tenant_id := tid.getD gt, tenant_name := w.wallet_name,
          wallet_id := w.wallet_id } ∧
    st.tenants.any (fun x => x.tenant_id == t.tenant_id) = false ∧
    st' = { tenants := st.tenants ++ [t], wallets := st.wallets ++ [w] } := by
  unfold create_wallet at h
  dsimp only at h
  split at h
  · simp at h
  · rename_i w' hw'
    split at h
    · simp at h
    · rename_i tok' htok'
      split at h
      · simp at h
      · rename_i tenant st2 heq
        simp only [Prod.mk.injEq, Except.ok.injEq] at h
        obtain ⟨⟨hten, hwr, htk⟩, hst⟩ := h
        rw [hwr] at hw' htok' heq
        rw [htk] at htok'
        rw [hten, hst] at heq
        obtain ⟨wr, hret, ht, hany, hst2⟩ :=
          create_tenant_ok_inv _ _ _ _ _ _ heq
        have hfil := retrieve_wallet_ok_inv _ _ _ hret
        obtain ⟨hnil, hw_eq⟩ :=
          filter_append_singleton st.wallets _ w wr (by simp) hfil
        subst hw_eq
        refine ⟨hw', htok', hnil, ht, ?_, ?_⟩
        · simpa using hany
        · rw [hst2]

/-- C4: in `create_wallet` the tenant record is created only after both
the multitenancy service's wallet creation and the auth-token issuance
have succeeded: a failure of either is re-raised unchanged and leaves the
stored tenant records untouched, and on success exactly the returned
tenant record is appended. -/
theorem create_wallet_no_tenant_without_wallet (mgr : BaseMultitenantManager)
    (st : TMState) (pwt : String) (wn wk : Option String)
    (gn gk gt : String) (extra : PyDict SettingVal) (tid : Option String) :
    (∀ e, mgr.create_wallet
        (build_wallet_settings pwt (defaultIf wn gn) (defaultIf wk gk) extra)
        MODE_MANAGED = .error e →
      create_wallet mgr st pwt wn wk gn gk gt extra tid = (.error e, st)) ∧
    (∀ w e, mgr.create_wallet
        (build_wallet_settings pwt (defaultIf wn gn) (defaultIf wk gk) extra)
        MODE_MANAGED = .ok w →
      mgr.create_auth_token w w.wallet_key = .error e →
      (create_wallet mgr st pwt wn wk gn gk gt extra tid).1 = .error e ∧
      ((create_wallet mgr st pwt wn wk gn gk gt extra tid).2).tenants =
        st.tenants) ∧
    (∀ t w tok,
      (create_wallet mgr st pwt wn wk gn gk gt extra tid).1 =
        .ok (t, w, tok) →
      ((create_wallet mgr st pwt wn wk gn gk gt extra tid).2).tenants =
        st.tenants ++ [t]) := by
  refine ⟨?_, ?_, ?_⟩
  · intro e he
    simp [create_wallet, he]
  · intro w e hw he
    simp [create_wallet, get_token, hw, he]
  · intro t w tok h
    have hpair : create_wallet mgr st pwt wn wk gn gk gt extra tid =
        (.ok (t, w, tok),
         (create_wallet mgr st pwt wn wk gn gk gt extra tid).2) := by
      rw [← h]
    obtain ⟨-, -, -, -, -, hst⟩ :=
      create_wallet_ok_inv _ _ _ _ _ _ _ _ _ _ _ _ _ _ hpair
    rw [hst]

/-- Closed instance of the C4 theorem: with a failing multitenancy
service, `create_wallet` re-raises the error and the store is unchanged. -/
theorem create_wallet_no_tenant_without_wallet_witness :
    create_wallet mgr_wallet_fails { tenants := [], wallets := [] } "askar"
      none none "n" "k" "t" [] none =
      (.error .baseError, { tenants := [], wallets := [] }) :=
  (create_wallet_no_tenant_without_wallet mgr_wallet_fails
    { tenants := [], wallets := [] } "askar" none none "n" "k" "t" []
    none).1 .baseError rfl

/-- Retrieval by id of a tenant record just appended to a store with no
other record of that id finds exactly it. -/
theorem retrieve_tenant_append (ts : List TenantRecord)
    (ws : List WalletRecord) (t : TenantRecord)
    (hnone : ts.any (fun x => x.tenant_id == t.tenant_id) = false) :
    retrieve_tenant_by_id { tenants := ts ++ [t], wallets := ws }
      t.tenant_id = .ok t := by
  have hnil : ts.filter (fun x => x.tenant_id == t.tenant_id) = [] := by
    rw [List.filter_eq_nil_iff]
    exact List.any_eq_false.mp hnone
  unfold retrieve_tenant_by_id
  simp [List.filter_append, hnil, List.filter_cons]

/-- Retrieval by id of a wallet record just appended to a store with no
other record of that id finds exactly it. -/
theorem retrieve_wallet_append (ts : List TenantRecord)
    (ws : List WalletRecord) (w : WalletRecord)
    (hnil : ws.filter (fun x => x.wallet_id == w.wallet_id) = []) :
    retrieve_wallet_by_id { tenants := ts, wallets := ws ++ [w] }
      w.wallet_id = .ok w := by
  unfold retrieve_wallet_by_id
  simp [List.filter_append, hnil, List.filter_cons]

/-- C7: `create_innkeeper` is idempotent: after a successful call, a
second call finds the existing innkeeper tenant and wallet, creates no new
wallet or tenant record (the store is unchanged), and reports the same
tenant, wallet and token. -/
theorem create_innkeeper_idempotent (mgr : BaseMultitenantManager)
    (st st1 : TMState) (pwt : String) (cfg : InnkeeperWalletConfig)
    (g1 g2 : String) (t1 : TenantRecord) (w1 : WalletRecord) (tok1 : String)
    (h1 : create_innkeeper mgr st pwt cfg g1 = (.ok (t1, w1, tok1), st1)) :
    create_innkeeper mgr st1 pwt cfg g2 = (.ok (t1, w1, tok1), st1) := by
  unfold create_innkeeper at h1
  cases hfind : find_innkeeper st cfg.tenant_id with
  | ok pair =>
    obtain ⟨t, w⟩ := pair
    rw [hfind] at h1
    dsimp only at h1
    cases htok : get_token mgr w with
    | error e =>
      rw [htok] at h1
      simp at h1
    | ok tok =>
      rw [htok] at h1
      simp only [Prod.mk.injEq, Except.ok.injEq] at h1
      obtain ⟨⟨ht, hw, htk⟩, hst⟩ := h1
      subst ht hw htk hst
      simp only [create_innkeeper, hfind, htok]
  | error e =>
    rw [hfind] at h1
    obtain ⟨hcw, htok, hnilW, ht, hany, hst1⟩ :=
      create_wallet_ok_inv _ _ _ _ _ _ _ _ _ _ _ _ _ _ h1
    have htid : t1.tenant_id = cfg.tenant_id := by
      rw [ht]
      rfl
    have hwid : t1.wallet_id = w1.wallet_id := by
      rw [ht]
    have hrt : retrieve_tenant_by_id st1 cfg.tenant_id = .ok t1 := by
      rw [hst1, ← htid]
      exact retrieve_tenant_append st.tenants (st.wallets ++ [w1]) t1 hany
    have hrw : retrieve_wallet_by_id st1 t1.wallet_id = .ok w1 := by
      rw [hst1, hwid]
      exact retrieve_wallet_append (st.tenants ++ [t1]) st.wallets w1 hnilW
    have hft : find_innkeeper st1 cfg.tenant_id = .ok (t1, w1) := by
      unfold find_innkeeper
      simp only [hrt, hrw]
    simp only [create_innkeeper, hft, htok]

/-- Closed instance of the idempotence theorem: a second
`create_innkeeper` call after a successful bootstrap returns the same
tenant, wallet and token and leaves the store unchanged. -/
theorem create_innkeeper_idempotent_witness :
    create_innkeeper mgr_all_ok
      { tenants := [{ tenant_id := "tid-1", tenant_name := "inn",
                      wallet_id := "wid-1" }],
        wallets := [{ wallet_id := "wid-1", wallet_name := "inn",
                      wallet_key := "key-1",
                      settings := build_wallet_settings "askar" "inn" "key-1"
                        [("wallet.innkeeper", SettingVal.bool true)] }] }
      "askar"
      { tenant_id := "tid-1", wallet_name := "inn", wallet_key := "key-1",
        print_key := false, print_token := false } "g2" =
      (.ok ({ tenant_id := "tid-1", tenant_name := "inn",
              wallet_id := "wid-1" },
            { wallet_id := "wid-1", wallet_name := "inn",
              wallet_key := "key-1",
              settings := build_wallet_settings "askar" "inn" "key-1"
                [("wallet.innkeeper", SettingVal.bool true)] },
            "token-wid-1"),
       { tenants := [{ tenant_id := "tid-1", tenant_name := "inn",
                       wallet_id := "wid-1" }],
         wallets := [{ wallet_id := "wid-1", wallet_name := "inn",
                       wallet_key := "key-1",
                       settings := build_wallet_settings "askar" "inn" "key-1"
                         [("wallet.innkeeper", SettingVal.bool true)] }] }) :=
  create_innkeeper_idempotent mgr_all_ok { tenants := [], wallets := [] }
    _ "askar"
    { tenant_id := "tid-1", wallet_name := "inn", wallet_key := "key-1",
      print_key := false, print_token := false } "g1" "g2" _ _ _ (by rfl)
